import Mathlib

/-!
Verification development for the `boxes.cc` benchmark scenario
(`BoxesTest::Boxes`): a conservation-law regression test for a rigid-body
physics simulator.  The scenario spawns box-shaped rigid bodies with a known
inertia tensor, asserts the simulator's echo of the initial conditions,
steps the simulation, and folds per-step deviations from analytically
predicted trajectories into maximum-absolute-value statistics.

Embedding conventions:
* IEEE doubles are modelled as exact rationals (`ℚ`); every literal constant
  of the source is transcribed exactly.
* The external simulator is an oracle (`SimOracle`) reporting per-body,
  per-step kinematic state and the simulated clock.
* External math-library primitives that are not rational (square root,
  sine/cosine, quaternion-to-Euler conversion) are passed as explicit
  function parameters, so that every definition stays executable; theorems
  that need their analytic properties take those properties as hypotheses.
-/

/-- Embedding of `ignition::math::Vector3d`: a 3-vector of (exact) doubles. -/
structure Vector3d where
  x : ℚ
  y : ℚ
  z : ℚ
deriving DecidableEq

/-- The zero vector (`ignition::math::Vector3d::Zero`). -/
def Vector3d.zero : Vector3d := ⟨0, 0, 0⟩

instance : Add Vector3d := ⟨fun a b => ⟨a.x + b.x, a.y + b.y, a.z + b.z⟩⟩

instance : Sub Vector3d := ⟨fun a b => ⟨a.x - b.x, a.y - b.y, a.z - b.z⟩⟩

/-- Componentwise product, the `Vector3d::operator*(Vector3d)` used at
`boxes.cc:156` to form `Vector3d(Ixx, Iyy, Izz) * w0`. -/
def Vector3d.mul (a b : Vector3d) : Vector3d := ⟨a.x * b.x, a.y * b.y, a.z * b.z⟩

/-- Scalar multiple `c * v` (`Vector3d::operator*(double)`). -/
def Vector3d.smul (c : ℚ) (v : Vector3d) : Vector3d := ⟨c * v.x, c * v.y, c * v.z⟩

/-- Componentwise division by a scalar (`Vector3d::operator/(double)`),
used at `boxes.cc:216` for `(H - H0) / H0mag`. -/
def Vector3d.div (v : Vector3d) (c : ℚ) : Vector3d := ⟨v.x / c, v.y / c, v.z / c⟩

/-- Squared Euclidean length; `Vector3d::Length()` is `sqrt` of this. -/
def Vector3d.lengthSq (v : Vector3d) : ℚ := v.x * v.x + v.y * v.y + v.z * v.z

/-- Dot product of two 3-vectors. -/
def Vector3d.dot (a b : Vector3d) : ℚ := a.x * b.x + a.y * b.y + a.z * b.z

/-- Embedding of `ignition::math::Matrix3d` (row-major entries). -/
structure Matrix3d where
  xx : ℚ
  xy : ℚ
  xz : ℚ
  yx : ℚ
  yy : ℚ
  yz : ℚ
  zx : ℚ
  zy : ℚ
  zz : ℚ
deriving DecidableEq

/-- Embedding of `ignition::math::Quaterniond` as raw components. -/
structure Quaterniond where
  qw : ℚ
  qx : ℚ
  qy : ℚ
  qz : ℚ
deriving DecidableEq

/-- The `Quaterniond(Vector3d)` constructor of the source
(`Quaterniond angleTrue(w0 * t)` at `boxes.cc:226`) builds the quaternion
from roll-pitch-yaw Euler angles; this is its closed form, with sine and
cosine passed as explicit parameters `sn`, `cs`. -/
def Quaterniond.fromEuler (sn cs : ℚ → ℚ) (v : Vector3d) : Quaterniond :=
  let phi := v.x / 2
  let the := v.y / 2
  let psi := v.z / 2
  ⟨cs phi * cs the * cs psi + sn phi * sn the * sn psi,
   sn phi * cs the * cs psi - cs phi * sn the * sn psi,
   cs phi * sn the * cs psi + sn phi * cs the * sn psi,
   cs phi * cs the * sn psi - sn phi * sn the * cs psi⟩

/-- Quaternion of the rotation by `angle` about the (unit) axis `axis`:
the closed-form orientation the specification predicts for the simple
scenario. -/
def Quaterniond.fromAxisAngle (sn cs : ℚ → ℚ) (axis : Vector3d) (angle : ℚ) :
    Quaterniond :=
  ⟨cs (angle / 2), axis.x * sn (angle / 2), axis.y * sn (angle / 2),
   axis.z * sn (angle / 2)⟩

namespace boxes

/-- Box size along x (`boxes.cc:54`). -/
def dx : ℚ := 1 / 10

/-- Box size along y (`boxes.cc:55`). -/
def dy : ℚ := 2 / 5

/-- Box size along z (`boxes.cc:56`). -/
def dz : ℚ := 9 / 10

/-- Box mass (`boxes.cc:57`). -/
def mass : ℚ := 10

/-- Expected inertia diagonal entry, hard-coded constant (`boxes.cc:59`). -/
def Ixx : ℚ := 80833333 / 100000000

/-- Expected inertia diagonal entry, hard-coded constant (`boxes.cc:60`). -/
def Iyy : ℚ := 68333333 / 100000000

/-- Expected inertia diagonal entry, hard-coded constant (`boxes.cc:61`). -/
def Izz : ℚ := 14166667 / 100000000

/-- The expected inertia matrix `I0` (`boxes.cc:62-64`): diagonal with the
hard-coded entries. -/
def I0 : Matrix3d := ⟨Ixx, 0, 0, 0, Iyy, 0, 0, 0, Izz⟩

/-- Initial linear velocity in the global frame (`boxes.cc:92/100`),
selected by the `_complex` flag. -/
def v0 (_complex : Bool) : Vector3d :=
  if _complex then ⟨-2, 2, 8⟩ else ⟨-(9 / 10), 2 / 5, 1 / 10⟩

/-- Initial angular velocity in the global frame (`boxes.cc:95/104`). -/
def w0 (_complex : Bool) : Vector3d :=
  if _complex then ⟨1 / 10, 5, 1 / 10⟩ else ⟨1 / 2, 0, 0⟩

/-- Initial energy baseline, hard-coded (`boxes.cc:96/105`). -/
def E0 (_complex : Bool) : ℚ :=
  if _complex then 36854641249999997 / 100000000000000
  else 5001041625 / 1000000000

/-- Requested simulated duration (`boxes.cc:162`). -/
def simDuration : ℚ := 10

/-- Spec-side analytical inertia tensor diagonal for a uniform-density
rectangular solid of mass `m` and dimensions `dx`, `dy`, `dz`:
`Ixx = m (dy^2 + dz^2) / 12`, `Iyy = m (dx^2 + dz^2) / 12`,
`Izz = m (dx^2 + dy^2) / 12`. -/
def boxInertiaDiag (m bdx bdy bdz : ℚ) : Vector3d :=
  ⟨m * (bdy * bdy + bdz * bdz) / 12,
   m * (bdx * bdx + bdz * bdz) / 12,
   m * (bdx * bdx + bdy * bdy) / 12⟩

/-- Height of the spawn position: every model is spawned at pose position
`(0, dz*2*i, 0)` (`boxes.cc:114`), so the initial center-of-gravity height
is zero in both scenarios. -/
def spawnHeight : ℚ := 0

/-- Spec-side analytical initial energy: translational plus rotational
kinetic energy computed from `v0`, `w0` and the analytical inertia diagonal,
plus the gravitational potential term `m * gz * h` for the initial height
(`h = spawnHeight = 0`; `gz` is the magnitude of the gravity component). -/
def initialEnergy (_complex : Bool) (gz : ℚ) : ℚ :=
  let I := boxInertiaDiag mass dx dy dz
  1 / 2 * mass * (v0 _complex).lengthSq
    + 1 / 2 * (Vector3d.mul I (w0 _complex)).dot (w0 _complex)
    + (if _complex then mass * gz * spawnHeight else 0)

end boxes

/-- Ceiling of a rational, modelling `ceil(simDuration / _dt)` at
`boxes.cc:163` (exact for all rationals; doubles are modelled exactly). -/
def ceilQ (q : ℚ) : ℤ := -((-q.num).fdiv q.den)

/-- Number of simulation steps executed: `int steps = ceil(10.0 / _dt)`. -/
def boxesSteps (_dt : ℚ) : ℕ := (ceilQ (boxes.simDuration / _dt)).toNat

/-- Kinematic state of one link as reported by the simulator, collecting
the accessors the scenario queries (`WorldCoGLinearVel`, `WorldAngularVel`,
`WorldInertialPose().Pos()`, `WorldInertialPose().Rot().Euler()`,
`WorldAngularMomentum`, `GetWorldEnergy`). -/
structure LinkState where
  worldCoGLinearVel : Vector3d
  worldAngularVel : Vector3d
  worldInertialPos : Vector3d
  worldInertialRotEuler : Vector3d
  worldAngularMomentum : Vector3d
  worldEnergy : ℚ
deriving DecidableEq

/-- The external simulator as an oracle.  `state b k` is the state of the
link of the `b`-th spawned model after `k` calls to `world->Step(1)`
(`k = 0` is the state right after the initial conditions are set);
`simTime k` is the simulated clock after `k` steps; `moi b` is the inertia
matrix reported for body `b`; `gravityWorld` is the world's gravity vector
when the world file's gravity is left active. -/
structure SimOracle where
  gravityWorld : Vector3d
  moi : ℕ → Matrix3d
  state : ℕ → ℕ → LinkState
  simTime : ℕ → ℚ

/-- Embedding of `ignition::math::SignalMaxAbsoluteValue`: running maximum
of absolute values, with the sample count kept by the statistics base
class. -/
structure SignalMaxAbsoluteValue where
  data : ℚ
  count : ℕ
deriving DecidableEq

/-- Freshly constructed statistic: zero value, zero samples. -/
def SignalMaxAbsoluteValue.init : SignalMaxAbsoluteValue := ⟨0, 0⟩

/-- `InsertData`: fold one scalar sample into the running maximum of
absolute values. -/
def SignalMaxAbsoluteValue.insertData (s : SignalMaxAbsoluteValue) (d : ℚ) :
    SignalMaxAbsoluteValue :=
  ⟨max |d| s.data, s.count + 1⟩

/-- Embedding of `ignition::math::Vector3Stats` restricted to the one
statistic the scenario registers (`maxAbs`): per-component statistics plus
the statistic of the sample's Euclidean length. -/
structure Vector3Stats where
  x : SignalMaxAbsoluteValue
  y : SignalMaxAbsoluteValue
  z : SignalMaxAbsoluteValue
  mag : SignalMaxAbsoluteValue
deriving DecidableEq

/-- Freshly constructed vector statistics. -/
def Vector3Stats.init : Vector3Stats :=
  ⟨SignalMaxAbsoluteValue.init, SignalMaxAbsoluteValue.init,
   SignalMaxAbsoluteValue.init, SignalMaxAbsoluteValue.init⟩

/-- `Vector3Stats::InsertData`: fold one vector sample into each component
statistic and its length into the magnitude statistic (`sqrt` is the
external square root). -/
def Vector3Stats.insertData (sqrt : ℚ → ℚ) (s : Vector3Stats) (d : Vector3d) :
    Vector3Stats :=
  ⟨s.x.insertData d.x, s.y.insertData d.y, s.z.insertData d.z,
   s.mag.insertData (sqrt d.lengthSq)⟩

/-- The five error accumulators of the scenario (`boxes.cc:166-170`). -/
@[ext]
structure ErrorStats where
  linearPositionError : Vector3Stats
  linearVelocityError : Vector3Stats
  angularPositionError : Vector3Stats
  angularMomentumError : Vector3Stats
  energyError : SignalMaxAbsoluteValue
deriving DecidableEq

/-- All five accumulators freshly constructed. -/
def ErrorStats.init : ErrorStats :=
  ⟨Vector3Stats.init, Vector3Stats.init, Vector3Stats.init, Vector3Stats.init,
   SignalMaxAbsoluteValue.init⟩

/-- Stage at which an `ASSERT_*` of the scenario fails (gtest aborts the
test body at the first failing assertion). -/
inductive BoxesError where
  | modelCount
  | initialLinearVel
  | initialAngularVel
  | initialInertia
  | initialEnergy
  | initialAngularMomentum
  | simTimeDrift
deriving DecidableEq

/-- One iteration of the stepping loop (`boxes.cc:183-232`): after
`world->Step(1)` number `i + 1`, read the elapsed simulated time `t` and the
link state, and insert the five error samples, in source order:
linear-velocity error (line 200), linear-position error (line 208),
normalized angular-momentum error (line 216), angular-position error only
when `!_complex` (lines 219-228), relative energy error (line 231).
`qe` is the external composite `Quaterniond(v).Euler()`. -/
def stepOnce (sqrt : ℚ → ℚ) (qe : Vector3d → Vector3d) (_complex : Bool)
    (o : SimOracle) (link : ℕ) (g v0 w0 p0 H0 : Vector3d) (H0mag E0 t0 : ℚ)
    (acc : ErrorStats) (i : ℕ) : ErrorStats :=
  let t := o.simTime (i + 1) - t0
  let s := o.state link (i + 1)
  { linearVelocityError :=
      acc.linearVelocityError.insertData sqrt
        (s.worldCoGLinearVel - (v0 + Vector3d.smul t g)),
    linearPositionError :=
      acc.linearPositionError.insertData sqrt
        (s.worldInertialPos
          - (p0 + Vector3d.smul t v0 + Vector3d.smul (1 / 2 * t * t) g)),
    angularMomentumError :=
      acc.angularMomentumError.insertData sqrt
        (Vector3d.div (s.worldAngularMomentum - H0) H0mag),
    angularPositionError :=
      if _complex then acc.angularPositionError
      else
        acc.angularPositionError.insertData sqrt
          (s.worldInertialRotEuler - qe (Vector3d.smul t w0)),
    energyError := acc.energyError.insertData ((s.worldEnergy - E0) / E0) }

/-- The statistics accumulated by the stepping loop of the scenario, with
the baselines captured once before stepping: `g` read at line 51 (zeroed for
the simple scenario), `v0`/`w0`/`E0` the scenario constants, `t0`/`p0`/`H0`
the simulator's reports before the first step, and
`H0mag = H0.Length()` (line 157). -/
def boxesStats (sqrt : ℚ → ℚ) (qe : Vector3d → Vector3d) (_dt : ℚ)
    (_modelCount : ℤ) (_complex : Bool) (o : SimOracle) : ErrorStats :=
  let g := if _complex then o.gravityWorld else Vector3d.zero
  let link := (_modelCount - 1).toNat
  let v0 := boxes.v0 _complex
  let w0 := boxes.w0 _complex
  let E0 := boxes.E0 _complex
  let s0 := o.state link 0
  let t0 := o.simTime 0
  let p0 := s0.worldInertialPos
  let H0 := s0.worldAngularMomentum
  let H0mag := sqrt H0.lengthSq
  (List.range (boxesSteps _dt)).foldl
    (stepOnce sqrt qe _complex o link g v0 w0 p0 H0 H0mag E0 t0)
    ErrorStats.init

/-- Embedding of the scenario body `BoxesTest::Boxes` (`boxes.cc:30-248`).
Control flow: `ASSERT_GT(_modelCount, 0)` (line 77); initial-condition
asserts (lines 127-129, 135, 156); the stepping loop; the final
`ASSERT_NEAR(simTime, simDuration, _dt*1.1)` (line 236).  A failing
assertion aborts the scenario with the corresponding `BoxesError`; a
completed run returns the accumulated statistics. -/
def BoxesTest.Boxes (sqrt : ℚ → ℚ) (qe : Vector3d → Vector3d) (_dt : ℚ)
    (_modelCount : ℤ) (_collision _complex : Bool) (o : SimOracle) :
    Except BoxesError ErrorStats :=
  if 0 < _modelCount then
    if (o.state (_modelCount - 1).toNat 0).worldCoGLinearVel
        = boxes.v0 _complex then
      if (o.state (_modelCount - 1).toNat 0).worldAngularVel
          = boxes.w0 _complex then
        if o.moi (_modelCount - 1).toNat = boxes.I0 then
          if |(o.state (_modelCount - 1).toNat 0).worldEnergy
              - boxes.E0 _complex| ≤ 1 / 1000000 then
            if (o.state (_modelCount - 1).toNat 0).worldAngularMomentum
                = Vector3d.mul ⟨boxes.Ixx, boxes.Iyy, boxes.Izz⟩
                    (boxes.w0 _complex) then
              if |(o.simTime (boxesSteps _dt) - o.simTime 0)
                  - boxes.simDuration| ≤ _dt * (11 / 10) then
                .ok (boxesStats sqrt qe _dt _modelCount _complex o)
              else .error .simTimeDrift
            else .error .initialAngularMomentum
          else .error .initialEnergy
        else .error .initialInertia
      else .error .initialAngularVel
    else .error .initialLinearVel
  else .error .modelCount

/-- One spawned model, as described by the message built in the spawn loop
(`boxes.cc:67-73, 108-125`): pose position `(0, dz*2*i, 0)`, optional
collision geometry, and the initial velocities set right after spawning. -/
structure SpawnCmd where
  posePos : Vector3d
  hasCollision : Bool
  linVel : Vector3d
  angVel : Vector3d
deriving DecidableEq

/-- The list of models the scenario spawns: none when
`ASSERT_GT(_modelCount, 0)` fails (the assert precedes the spawn loop),
otherwise one model per loop iteration, each receiving the same `v0` and
`w0` via `SetLinearVel` / `SetAngularVel` (`boxes.cc:123-124`). -/
def spawnedModels (_modelCount : ℤ) (_collision _complex : Bool) :
    List SpawnCmd :=
  if 0 < _modelCount then
    (List.range _modelCount.toNat).map
      (fun (i : ℕ) =>
        ⟨⟨0, boxes.dz * 2 * (i : ℚ), 0⟩, _collision,
         boxes.v0 _complex, boxes.w0 _complex⟩)
  else []

deriving instance DecidableEq for Except

/-- Payload of a completed run (`ErrorStats.init` when the run aborted);
lets closed statements name the statistics of a concrete run. -/
def okStats (e : Except BoxesError ErrorStats) : ErrorStats :=
  match e with
  | .ok r => r
  | .error _ => ErrorStats.init

/-- Closed form of a `maxAbs` statistic fed a list of scalar samples:
the maximum absolute value over the list (`0` when empty), with the sample
count equal to the list length. -/
def maxAbsSignal (l : List ℚ) : SignalMaxAbsoluteValue :=
  ⟨l.foldl (fun a d => max |d| a) 0, l.length⟩

/-- Closed form of a `maxAbs` vector statistic fed a list of vector
samples: per-component maxima of absolute values plus the maximum of the
sample lengths. -/
def maxAbsVector3 (sq : ℚ → ℚ) (l : List Vector3d) : Vector3Stats :=
  ⟨maxAbsSignal (l.map fun d => d.x), maxAbsSignal (l.map fun d => d.y),
   maxAbsSignal (l.map fun d => d.z),
   maxAbsSignal (l.map fun d => sq d.lengthSq)⟩

/-- Specification-side per-step linear-velocity error samples: at step `i`
(elapsed time `t = simTime (i+1) - t0`), reported world CoG linear velocity
minus the prediction `v0 + g * t`. -/
def linearVelocitySamples (o : SimOracle) (link : ℕ) (g v0 : Vector3d)
    (t0 : ℚ) (steps : ℕ) : List Vector3d :=
  (List.range steps).map fun i =>
    (o.state link (i + 1)).worldCoGLinearVel
      - (v0 + Vector3d.smul (o.simTime (i + 1) - t0) g)

/-- Specification-side per-step linear-position error samples: reported
world inertial position minus the prediction `p0 + v0 * t + (1/2) g t^2`. -/
def linearPositionSamples (o : SimOracle) (link : ℕ) (g v0 p0 : Vector3d)
    (t0 : ℚ) (steps : ℕ) : List Vector3d :=
  (List.range steps).map fun i =>
    (o.state link (i + 1)).worldInertialPos
      - (p0 + Vector3d.smul (o.simTime (i + 1) - t0) v0
          + Vector3d.smul (1 / 2 * (o.simTime (i + 1) - t0)
              * (o.simTime (i + 1) - t0)) g)

/-- Specification-side per-step angular-momentum error samples: reported
world angular momentum minus the fixed baseline `H0`, divided componentwise
by the scalar magnitude `H0mag`. -/
def angularMomentumSamples (o : SimOracle) (link : ℕ) (H0 : Vector3d)
    (H0mag : ℚ) (steps : ℕ) : List Vector3d :=
  (List.range steps).map fun i =>
    ((o.state link (i + 1)).worldAngularMomentum - H0).div H0mag

/-- Specification-side per-step angular-position error samples: reported
Euler angles minus the Euler angles of the predicted orientation
`Quaterniond(w0 * t)` (the composite conversion is `qe`). -/
def angularPositionSamples (qe : Vector3d → Vector3d) (o : SimOracle)
    (link : ℕ) (w0 : Vector3d) (t0 : ℚ) (steps : ℕ) : List Vector3d :=
  (List.range steps).map fun i =>
    (o.state link (i + 1)).worldInertialRotEuler
      - qe (Vector3d.smul (o.simTime (i + 1) - t0) w0)

/-- Specification-side per-step relative-energy error samples:
`(reported energy - E0) / E0` against the constant baseline `E0`. -/
def energySamples (o : SimOracle) (link : ℕ) (E0 : ℚ) (steps : ℕ) :
    List ℚ :=
  (List.range steps).map fun i =>
    ((o.state link (i + 1)).worldEnergy - E0) / E0

/-- Square root stand-in for witnesses: any function is admissible where a
theorem abstracts over the external square root. -/
def sqrtW : ℚ → ℚ := fun _ => 1 / 2

/-- Square root stand-in that is positive on positive arguments. -/
def sqrtPos : ℚ → ℚ := fun x => if 0 < x then 1 else 0

/-- Euler-conversion stand-in for witnesses. -/
def qeW : Vector3d → Vector3d := fun _ => Vector3d.zero

/-- Simulator echo of the simple-scenario initial conditions: exactly the
values the initial asserts of the scenario expect. -/
def s0s : LinkState :=
  { worldCoGLinearVel := boxes.v0 false, worldAngularVel := boxes.w0 false,
    worldInertialPos := Vector3d.zero, worldInertialRotEuler := Vector3d.zero,
    worldAngularMomentum :=
      Vector3d.mul ⟨boxes.Ixx, boxes.Iyy, boxes.Izz⟩ (boxes.w0 false),
    worldEnergy := boxes.E0 false }

/-- Concrete oracle for a simple-scenario run: every body reports `s0s`
forever and the clock advances ten seconds per step. -/
def oS : SimOracle :=
  { gravityWorld := ⟨0, 0, -(98 / 10)⟩, moi := fun _ => boxes.I0,
    state := fun _ _ => s0s, simTime := fun k => 10 * (k : ℚ) }

/-- Simulator echo of the complex-scenario initial conditions. -/
def s0c : LinkState :=
  { worldCoGLinearVel := boxes.v0 true, worldAngularVel := boxes.w0 true,
    worldInertialPos := Vector3d.zero, worldInertialRotEuler := Vector3d.zero,
    worldAngularMomentum :=
      Vector3d.mul ⟨boxes.Ixx, boxes.Iyy, boxes.Izz⟩ (boxes.w0 true),
    worldEnergy := boxes.E0 true }

/-- Concrete oracle for a complex-scenario run. -/
def oC : SimOracle :=
  { gravityWorld := ⟨0, 0, -(98 / 10)⟩, moi := fun _ => boxes.I0,
    state := fun _ _ => s0c, simTime := fun k => 10 * (k : ℚ) }

/-- Concrete oracle whose clock reports seven seconds of elapsed simulated
time after the final step, regardless of the step count. -/
def oT : SimOracle :=
  { oS with simTime := fun k => if k = 0 then 0 else 7 }

/-- A deviating link state (used to perturb bodies other than the last). -/
def s0alt : LinkState :=
  { s0s with worldEnergy := 0, worldCoGLinearVel := ⟨1, 1, 1⟩ }

/-- Oracle with two bodies that both report `s0s`. -/
def oA : SimOracle :=
  { oS with state := fun _ _ => s0s }

/-- Oracle that agrees with `oA` on body `1` but deviates on body `0`. -/
def oB : SimOracle :=
  { oS with state := fun b _ => if b = 0 then s0alt else s0s }

/-- Folding scalar samples into a `maxAbs` statistic is a running maximum
of absolute values together with a sample count. -/
theorem sig_foldl_insertData (l : List ℚ) (s : SignalMaxAbsoluteValue) :
    l.foldl SignalMaxAbsoluteValue.insertData s
      = ⟨l.foldl (fun a d => max |d| a) s.data, s.count + l.length⟩ := by
  induction l generalizing s with
  | nil => rfl
  | cons d l ih =>
      simp only [List.foldl_cons, ih, SignalMaxAbsoluteValue.insertData,
        List.length_cons]
      exact congrArg _ (by omega)

/-- A freshly constructed `maxAbs` statistic fed a sample list yields its
closed form. -/
theorem sig_foldl_init (l : List ℚ) :
    l.foldl SignalMaxAbsoluteValue.insertData SignalMaxAbsoluteValue.init
      = maxAbsSignal l := by
  rw [sig_foldl_insertData]
  simp [maxAbsSignal, SignalMaxAbsoluteValue.init]

/-- Folding vector samples into a `Vector3Stats` acts componentwise (and on
the lengths for the magnitude channel). -/
theorem v3_foldl_insertData (sq : ℚ → ℚ) (l : List Vector3d)
    (s : Vector3Stats) :
    l.foldl (Vector3Stats.insertData sq) s
      = ⟨(l.map fun d => d.x).foldl SignalMaxAbsoluteValue.insertData s.x,
         (l.map fun d => d.y).foldl SignalMaxAbsoluteValue.insertData s.y,
         (l.map fun d => d.z).foldl SignalMaxAbsoluteValue.insertData s.z,
         (l.map fun d => sq d.lengthSq).foldl
           SignalMaxAbsoluteValue.insertData s.mag⟩ := by
  induction l generalizing s with
  | nil => rfl
  | cons d l ih =>
      simp only [List.foldl_cons, List.map_cons, ih, Vector3Stats.insertData]

/-- A freshly constructed vector statistic fed a sample list yields its
closed form. -/
theorem v3_foldl_init (sq : ℚ → ℚ) (l : List Vector3d) :
    l.foldl (Vector3Stats.insertData sq) Vector3Stats.init
      = maxAbsVector3 sq l := by
  rw [v3_foldl_insertData]
  simp only [Vector3Stats.init, sig_foldl_init, maxAbsVector3]

/-- The linear-velocity accumulator of the stepping loop folds exactly the
per-step linear-velocity error samples. -/
theorem foldl_stepOnce_linVel (sq : ℚ → ℚ) (qe : Vector3d → Vector3d)
    (cx : Bool) (o : SimOracle) (link : ℕ) (g v0 w0 p0 H0 : Vector3d)
    (H0mag E0 t0 : ℚ) (L : List ℕ) (acc : ErrorStats) :
    (L.foldl (stepOnce sq qe cx o link g v0 w0 p0 H0 H0mag E0 t0)
        acc).linearVelocityError
      = (L.map fun i => (o.state link (i + 1)).worldCoGLinearVel
            - (v0 + Vector3d.smul (o.simTime (i + 1) - t0) g)).foldl
          (Vector3Stats.insertData sq) acc.linearVelocityError := by
  induction L generalizing acc with
  | nil => rfl
  | cons i L ih => simp only [List.foldl_cons, List.map_cons, ih, stepOnce]

/-- The linear-position accumulator of the stepping loop folds exactly the
per-step linear-position error samples. -/
theorem foldl_stepOnce_linPos (sq : ℚ → ℚ) (qe : Vector3d → Vector3d)
    (cx : Bool) (o : SimOracle) (link : ℕ) (g v0 w0 p0 H0 : Vector3d)
    (H0mag E0 t0 : ℚ) (L : List ℕ) (acc : ErrorStats) :
    (L.foldl (stepOnce sq qe cx o link g v0 w0 p0 H0 H0mag E0 t0)
        acc).linearPositionError
      = (L.map fun i => (o.state link (i + 1)).worldInertialPos
            - (p0 + Vector3d.smul (o.simTime (i + 1) - t0) v0
                + Vector3d.smul (1 / 2 * (o.simTime (i + 1) - t0)
                    * (o.simTime (i + 1) - t0)) g)).foldl
          (Vector3Stats.insertData sq) acc.linearPositionError := by
  induction L generalizing acc with
  | nil => rfl
  | cons i L ih => simp only [List.foldl_cons, List.map_cons, ih, stepOnce]

/-- The angular-momentum accumulator of the stepping loop folds exactly the
per-step normalized angular-momentum error samples. -/
theorem foldl_stepOnce_angMom (sq : ℚ → ℚ) (qe : Vector3d → Vector3d)
    (cx : Bool) (o : SimOracle) (link : ℕ) (g v0 w0 p0 H0 : Vector3d)
    (H0mag E0 t0 : ℚ) (L : List ℕ) (acc : ErrorStats) :
    (L.foldl (stepOnce sq qe cx o link g v0 w0 p0 H0 H0mag E0 t0)
        acc).angularMomentumError
      = (L.map fun i =>
            ((o.state link (i + 1)).worldAngularMomentum - H0).div H0mag).foldl
          (Vector3Stats.insertData sq) acc.angularMomentumError := by
  induction L generalizing acc with
  | nil => rfl
  | cons i L ih => simp only [List.foldl_cons, List.map_cons, ih, stepOnce]

/-- The energy accumulator of the stepping loop folds exactly the per-step
relative energy error samples. -/
theorem foldl_stepOnce_energy (sq : ℚ → ℚ) (qe : Vector3d → Vector3d)
    (cx : Bool) (o : SimOracle) (link : ℕ) (g v0 w0 p0 H0 : Vector3d)
    (H0mag E0 t0 : ℚ) (L : List ℕ) (acc : ErrorStats) :
    (L.foldl (stepOnce sq qe cx o link g v0 w0 p0 H0 H0mag E0 t0)
        acc).energyError
      = (L.map fun i => ((o.state link (i + 1)).worldEnergy - E0) / E0).foldl
          SignalMaxAbsoluteValue.insertData acc.energyError := by
  induction L generalizing acc with
  | nil => rfl
  | cons i L ih => simp only [List.foldl_cons, List.map_cons, ih, stepOnce]

/-- The angular-position accumulator is untouched in the complex scenario
and otherwise folds exactly the per-step angular-position error samples. -/
theorem foldl_stepOnce_angPos (sq : ℚ → ℚ) (qe : Vector3d → Vector3d)
    (cx : Bool) (o : SimOracle) (link : ℕ) (g v0 w0 p0 H0 : Vector3d)
    (H0mag E0 t0 : ℚ) (L : List ℕ) (acc : ErrorStats) :
    (L.foldl (stepOnce sq qe cx o link g v0 w0 p0 H0 H0mag E0 t0)
        acc).angularPositionError
      = if cx then acc.angularPositionError
        else (L.map fun i => (o.state link (i + 1)).worldInertialRotEuler
              - qe (Vector3d.smul (o.simTime (i + 1) - t0) w0)).foldl
            (Vector3Stats.insertData sq) acc.angularPositionError := by
  induction L generalizing acc with
  | nil => cases cx <;> rfl
  | cons i L ih =>
      cases cx <;>
        simp only [List.foldl_cons, List.map_cons, ih, stepOnce,
          if_true, if_false, Bool.false_eq_true, ite_false, ite_true]

/-- Closed form of the statistics accumulated over a run: each accumulator
is the `maxAbs` statistic of the corresponding specification-side sample
list, taken against the baselines captured once before stepping. -/
theorem boxesStats_closed (sq : ℚ → ℚ) (qe : Vector3d → Vector3d) (_dt : ℚ)
    (mc : ℤ) (cx : Bool) (o : SimOracle) :
    boxesStats sq qe _dt mc cx o =
      { linearPositionError :=
          maxAbsVector3 sq (linearPositionSamples o (mc - 1).toNat
            (if cx then o.gravityWorld else Vector3d.zero) (boxes.v0 cx)
            ((o.state (mc - 1).toNat 0).worldInertialPos) (o.simTime 0)
            (boxesSteps _dt)),
        linearVelocityError :=
          maxAbsVector3 sq (linearVelocitySamples o (mc - 1).toNat
            (if cx then o.gravityWorld else Vector3d.zero) (boxes.v0 cx)
            (o.simTime 0) (boxesSteps _dt)),
        angularPositionError :=
          if cx then Vector3Stats.init
          else maxAbsVector3 sq (angularPositionSamples qe o (mc - 1).toNat
            (boxes.w0 cx) (o.simTime 0) (boxesSteps _dt)),
        angularMomentumError :=
          maxAbsVector3 sq (angularMomentumSamples o (mc - 1).toNat
            ((o.state (mc - 1).toNat 0).worldAngularMomentum)
            (sq ((o.state (mc - 1).toNat 0).worldAngularMomentum.lengthSq))
            (boxesSteps _dt)),
        energyError :=
          maxAbsSignal (energySamples o (mc - 1).toNat (boxes.E0 cx)
            (boxesSteps _dt)) } := by
  unfold boxesStats
  ext1
  case linearPositionError =>
    rw [foldl_stepOnce_linPos]
    exact v3_foldl_init _ _
  case linearVelocityError =>
    rw [foldl_stepOnce_linVel]
    exact v3_foldl_init _ _
  case angularPositionError =>
    rw [foldl_stepOnce_angPos]
    cases cx
    · simpa using v3_foldl_init _ _
    · rfl
  case angularMomentumError =>
    rw [foldl_stepOnce_angMom]
    exact v3_foldl_init _ _
  case energyError =>
    rw [foldl_stepOnce_energy]
    exact sig_foldl_init _

/-- A run returns accumulated statistics exactly when the model count is
positive, every initial-condition assert holds, and the final
simulated-duration assert holds; the returned statistics are those of the
stepping loop. -/
theorem Boxes_ok_iff (sq : ℚ → ℚ) (qe : Vector3d → Vector3d) (_dt : ℚ)
    (mc : ℤ) (coll cx : Bool) (o : SimOracle) (res : ErrorStats) :
    BoxesTest.Boxes sq qe _dt mc coll cx o = .ok res ↔
      0 < mc ∧
      (o.state (mc - 1).toNat 0).worldCoGLinearVel = boxes.v0 cx ∧
      (o.state (mc - 1).toNat 0).worldAngularVel = boxes.w0 cx ∧
      o.moi (mc - 1).toNat = boxes.I0 ∧
      |(o.state (mc - 1).toNat 0).worldEnergy - boxes.E0 cx| ≤ 1 / 1000000 ∧
      (o.state (mc - 1).toNat 0).worldAngularMomentum
        = Vector3d.mul ⟨boxes.Ixx, boxes.Iyy, boxes.Izz⟩ (boxes.w0 cx) ∧
      |(o.simTime (boxesSteps _dt) - o.simTime 0) - boxes.simDuration|
        ≤ _dt * (11 / 10) ∧
      boxesStats sq qe _dt mc cx o = res := by
  unfold BoxesTest.Boxes
  split_ifs with h1 h2 h3 h4 h5 h6 h7 <;>
    simp_all

/-- The embedded `ceil` agrees with the mathematical ceiling function. -/
theorem ceilQ_eq_ceil (q : ℚ) : ceilQ q = ⌈q⌉ := by
  have hnum : -q.num = (-q).num := (Rat.num_neg_eq_neg_num q).symm
  have hden : q.den = (-q).den := (Rat.neg_den q).symm
  rw [ceilQ, hnum, hden,
    Int.fdiv_eq_ediv _ (Int.ofNat_nonneg (-q).den), ← Rat.floor_def,
    Int.floor_neg, neg_neg]

/-- C3: the diagonal inertia tensor used for the box (mass `10`,
dimensions `0.1 x 0.4 x 0.9`) is the diagonal matrix of the hard-coded
entries, and the uniform-density formulas
`Ixx = m (dy^2 + dz^2) / 12`, `Iyy = m (dx^2 + dz^2) / 12`,
`Izz = m (dx^2 + dy^2) / 12` reproduce those entries to within `1e-6`
in each component. -/
theorem boxes_inertia_constants_match_formula :
    boxes.I0 = ⟨boxes.Ixx, 0, 0, 0, boxes.Iyy, 0, 0, 0, boxes.Izz⟩ ∧
    |(boxes.boxInertiaDiag boxes.mass boxes.dx boxes.dy boxes.dz).x
      - boxes.Ixx| ≤ 1 / 1000000 ∧
    |(boxes.boxInertiaDiag boxes.mass boxes.dx boxes.dy boxes.dz).y
      - boxes.Iyy| ≤ 1 / 1000000 ∧
    |(boxes.boxInertiaDiag boxes.mass boxes.dx boxes.dy boxes.dz).z
      - boxes.Izz| ≤ 1 / 1000000 :=
  ⟨rfl, by decide!, by decide!, by decide!⟩

/-- C4: in the simple scenario (zero gravity), the analytical initial
energy (translational plus rotational kinetic energy, no potential term)
agrees with the hard-coded baseline `E0 = 5.001041625` to within `1e-6`. -/
theorem boxes_simple_energy_baseline :
    |boxes.initialEnergy false 0 - boxes.E0 false| ≤ 1 / 1000000 := by
  decide!

/-- C5 counterexample: in the complex scenario, the analytical initial
energy (kinetic energy plus the potential term for the initial height,
which is zero) differs from the hard-coded baseline
`E0 = 368.54641249999997` by more than `1e-6` (the gap is about
`4.17e-6`). -/
theorem boxes_complex_energy_baseline_cex :
    ¬ |boxes.initialEnergy true (98 / 10) - boxes.E0 true| ≤ 1 / 1000000 := by
  decide!

/-- C5 amended: in the complex scenario the analytical initial energy
agrees with the hard-coded baseline `E0 = 368.54641249999997` only to
within `4.2e-6` (for any gravity magnitude, since the initial height is
zero). -/
theorem boxes_complex_energy_baseline_amended :
    ∀ gz : ℚ, |boxes.initialEnergy true gz - boxes.E0 true|
      ≤ 42 / 10000000 := by
  intro gz
  have h : boxes.initialEnergy true gz = boxes.initialEnergy true 0 := by
    simp [boxes.initialEnergy, boxes.spawnHeight]
  rw [h]
  decide!

/-- C10: in both scenarios the angular velocity `w0` is non-zero and the
inertia diagonal entries are positive, the squared magnitude of the
baseline angular momentum `H0 = (Ixx, Iyy, Izz) * w0` is strictly
positive, so for any square root that is positive on positive inputs the
divisor `H0mag` is strictly positive, and the baseline energy `E0` is
strictly positive; hence neither per-step division is by zero. -/
theorem boxes_error_divisors_positive (c : Bool) (sq : ℚ → ℚ)
    (hsq : ∀ x : ℚ, 0 < x → 0 < sq x) :
    (boxes.w0 c ≠ Vector3d.zero
      ∧ 0 < boxes.Ixx ∧ 0 < boxes.Iyy ∧ 0 < boxes.Izz) ∧
    0 < (Vector3d.mul ⟨boxes.Ixx, boxes.Iyy, boxes.Izz⟩
          (boxes.w0 c)).lengthSq ∧
    0 < sq (Vector3d.mul ⟨boxes.Ixx, boxes.Iyy, boxes.Izz⟩
          (boxes.w0 c)).lengthSq ∧
    sq (Vector3d.mul ⟨boxes.Ixx, boxes.Iyy, boxes.Izz⟩
          (boxes.w0 c)).lengthSq ≠ 0 ∧
    0 < boxes.E0 c ∧ boxes.E0 c ≠ 0 := by
  have hlen : 0 < (Vector3d.mul ⟨boxes.Ixx, boxes.Iyy, boxes.Izz⟩
      (boxes.w0 c)).lengthSq := by
    cases c
    · decide!
    · decide!
  have hmag := hsq _ hlen
  refine ⟨?_, hlen, hmag, ne_of_gt hmag, ?_, ?_⟩
  · cases c
    · exact ⟨by decide!, by decide!, by decide!, by decide!⟩
    · exact ⟨by decide!, by decide!, by decide!, by decide!⟩
  · cases c
    · decide!
    · decide!
  · cases c
    · decide!
    · decide!

/-- C10 witness: the hypotheses are satisfiable, e.g. by the square root
stand-in that returns `1` on positive arguments, in the complex scenario. -/
theorem boxes_error_divisors_positive_witness :
    (boxes.w0 true ≠ Vector3d.zero
      ∧ 0 < boxes.Ixx ∧ 0 < boxes.Iyy ∧ 0 < boxes.Izz) ∧
    0 < (Vector3d.mul ⟨boxes.Ixx, boxes.Iyy, boxes.Izz⟩
          (boxes.w0 true)).lengthSq ∧
    0 < sqrtPos (Vector3d.mul ⟨boxes.Ixx, boxes.Iyy, boxes.Izz⟩
          (boxes.w0 true)).lengthSq ∧
    sqrtPos (Vector3d.mul ⟨boxes.Ixx, boxes.Iyy, boxes.Izz⟩
          (boxes.w0 true)).lengthSq ≠ 0 ∧
    0 < boxes.E0 true ∧ boxes.E0 true ≠ 0 :=
  boxes_error_divisors_positive true sqrtPos
    (fun x hx => by simp [sqrtPos, hx])

/-- C1: in any completed run (either scenario), the angular-momentum
accumulator is the `maxAbs` statistic of the samples
`(H_i - H0) / |H0|` — componentwise difference from the fixed baseline
`H0` reported before stepping, divided by the scalar magnitude
`|H0| = sqrt(H0.lengthSq)` — and the energy accumulator is the `maxAbs`
statistic of the samples `(E_i - E0) / E0` against the constant scenario
baseline `E0`; both baselines are the ones captured once before stepping,
never a previous step's value. -/
theorem boxes_angMomentum_energy_error_closed_form (sq : ℚ → ℚ)
    (qe : Vector3d → Vector3d) (_dt : ℚ) (mc : ℤ) (coll cx : Bool)
    (o : SimOracle) (res : ErrorStats)
    (h : BoxesTest.Boxes sq qe _dt mc coll cx o = .ok res) :
    res.angularMomentumError
      = maxAbsVector3 sq (angularMomentumSamples o (mc - 1).toNat
          ((o.state (mc - 1).toNat 0).worldAngularMomentum)
          (sq ((o.state (mc - 1).toNat 0).worldAngularMomentum.lengthSq))
          (boxesSteps _dt)) ∧
    res.energyError
      = maxAbsSignal (energySamples o (mc - 1).toNat (boxes.E0 cx)
          (boxesSteps _dt)) := by
  obtain ⟨-, -, -, -, -, -, -, hres⟩ := (Boxes_ok_iff _ _ _ _ _ _ _ _).mp h
  rw [← hres, boxesStats_closed]
  exact ⟨rfl, rfl⟩

/-- C1 witness: a concrete completed simple-scenario run. -/
theorem boxes_angMomentum_energy_error_closed_form_witness :
    (okStats (BoxesTest.Boxes sqrtW qeW 10 1 false false oS)).angularMomentumError
      = maxAbsVector3 sqrtW (angularMomentumSamples oS ((1 : ℤ) - 1).toNat
          ((oS.state ((1 : ℤ) - 1).toNat 0).worldAngularMomentum)
          (sqrtW ((oS.state ((1 : ℤ) - 1).toNat
              0).worldAngularMomentum.lengthSq))
          (boxesSteps 10)) ∧
    (okStats (BoxesTest.Boxes sqrtW qeW 10 1 false false oS)).energyError
      = maxAbsSignal (energySamples oS ((1 : ℤ) - 1).toNat (boxes.E0 false)
          (boxesSteps 10)) :=
  boxes_angMomentum_energy_error_closed_form sqrtW qeW 10 1 false false oS
    (okStats (BoxesTest.Boxes sqrtW qeW 10 1 false false oS)) (by decide!)

/-- C2: in any completed run, the linear-velocity accumulator is the
`maxAbs` statistic of the samples `v_i - (v0 + g t_i)` and the
linear-position accumulator that of `p_i - (p0 + v0 t_i + (1/2) g t_i^2)`,
where `t_i` is the elapsed simulated time after step `i`, and `v0`, `p0`,
`g` are the values captured once before stepping (`g` is zeroed in the
simple scenario). -/
theorem boxes_linear_error_closed_form (sq : ℚ → ℚ)
    (qe : Vector3d → Vector3d) (_dt : ℚ) (mc : ℤ) (coll cx : Bool)
    (o : SimOracle) (res : ErrorStats)
    (h : BoxesTest.Boxes sq qe _dt mc coll cx o = .ok res) :
    res.linearVelocityError
      = maxAbsVector3 sq (linearVelocitySamples o (mc - 1).toNat
          (if cx then o.gravityWorld else Vector3d.zero) (boxes.v0 cx)
          (o.simTime 0) (boxesSteps _dt)) ∧
    res.linearPositionError
      = maxAbsVector3 sq (linearPositionSamples o (mc - 1).toNat
          (if cx then o.gravityWorld else Vector3d.zero) (boxes.v0 cx)
          ((o.state (mc - 1).toNat 0).worldInertialPos)
          (o.simTime 0) (boxesSteps _dt)) := by
  obtain ⟨-, -, -, -, -, -, -, hres⟩ := (Boxes_ok_iff _ _ _ _ _ _ _ _).mp h
  rw [← hres, boxesStats_closed]
  exact ⟨rfl, rfl⟩

/-- C2 witness: a concrete completed simple-scenario run. -/
theorem boxes_linear_error_closed_form_witness :
    (okStats (BoxesTest.Boxes sqrtW qeW 10 1 false false oS)).linearVelocityError
      = maxAbsVector3 sqrtW (linearVelocitySamples oS ((1 : ℤ) - 1).toNat
          (if false then oS.gravityWorld else Vector3d.zero) (boxes.v0 false)
          (oS.simTime 0) (boxesSteps 10)) ∧
    (okStats (BoxesTest.Boxes sqrtW qeW 10 1 false false oS)).linearPositionError
      = maxAbsVector3 sqrtW (linearPositionSamples oS ((1 : ℤ) - 1).toNat
          (if false then oS.gravityWorld else Vector3d.zero) (boxes.v0 false)
          ((oS.state ((1 : ℤ) - 1).toNat 0).worldInertialPos)
          (oS.simTime 0) (boxesSteps 10)) :=
  boxes_linear_error_closed_form sqrtW qeW 10 1 false false oS
    (okStats (BoxesTest.Boxes sqrtW qeW 10 1 false false oS)) (by decide!)

/-- C8 (amended): the run executes `N = ceil(10.0 / dt)` steps (the sample
count of every accumulator equals `N`, and for positive `dt` the embedded
`ceil` is the mathematical ceiling); a completed run's elapsed simulated
time `T` satisfies `|T - 10.0| <= 1.1 * dt` — the bound is against the
requested duration `10.0`, not against `N * dt` — and exceeding this bound
is fatal (no statistics are returned). -/
theorem boxes_step_count_and_duration (sq : ℚ → ℚ)
    (qe : Vector3d → Vector3d) (_dt : ℚ) (mc : ℤ) (coll cx : Bool)
    (o : SimOracle) :
    (∀ res, BoxesTest.Boxes sq qe _dt mc coll cx o = .ok res →
      res.energyError.count = boxesSteps _dt ∧
      |(o.simTime (boxesSteps _dt) - o.simTime 0) - boxes.simDuration|
        ≤ _dt * (11 / 10)) ∧
    (0 < _dt → (boxesSteps _dt : ℤ) = ⌈boxes.simDuration / _dt⌉) ∧
    (¬ |(o.simTime (boxesSteps _dt) - o.simTime 0) - boxes.simDuration|
        ≤ _dt * (11 / 10) →
      ∀ res, BoxesTest.Boxes sq qe _dt mc coll cx o ≠ .ok res) := by
  refine ⟨?_, ?_, ?_⟩
  · intro res h
    obtain ⟨-, -, -, -, -, -, htime, hres⟩ := (Boxes_ok_iff _ _ _ _ _ _ _ _).mp h
    refine ⟨?_, htime⟩
    rw [← hres, boxesStats_closed]
    simp [maxAbsSignal, energySamples]
  · intro hdt
    rw [boxesSteps, ceilQ_eq_ceil]
    refine Int.toNat_of_nonneg (le_of_lt (Int.ceil_pos.mpr ?_))
    have h10 : (0 : ℚ) < boxes.simDuration := by norm_num [boxes.simDuration]
    exact div_pos h10 hdt
  · intro hbound res h
    exact hbound ((Boxes_ok_iff _ _ _ _ _ _ _ _).mp h).2.2.2.2.2.2.1

/-- C8 witness: a concrete completed run with `dt = 10` (one step). -/
theorem boxes_step_count_and_duration_witness :
    ((okStats (BoxesTest.Boxes sqrtW qeW 10 1 false false oS)).energyError.count
        = boxesSteps 10 ∧
      |(oS.simTime (boxesSteps 10) - oS.simTime 0) - boxes.simDuration|
        ≤ 10 * (11 / 10)) ∧
    (boxesSteps 10 : ℤ) = ⌈boxes.simDuration / 10⌉ :=
  ⟨(boxes_step_count_and_duration sqrtW qeW 10 1 false false oS).1
      (okStats (BoxesTest.Boxes sqrtW qeW 10 1 false false oS)) (by decide!),
   (boxes_step_count_and_duration sqrtW qeW 10 1 false false oS).2.1
      (by norm_num)⟩

/-- C8 counterexample: with `dt = 3` the run executes `N = 4` steps and
`N * dt = 12`; an oracle reporting `T = 7` seconds of elapsed simulated
time completes successfully (the enforced bound is `|T - 10| <= 3.3`),
yet `|T - N * dt| = 5 > 3.3`, so the claimed bound `|T - N*dt| <= 1.1*dt`
is not the asserted property. -/
theorem boxes_duration_bound_cex :
    (BoxesTest.Boxes sqrtW qeW 3 1 false false oT).isOk = true ∧
    ¬ |(oT.simTime (boxesSteps 3) - oT.simTime 0)
        - (boxesSteps 3 : ℚ) * 3| ≤ 3 * (11 / 10) :=
  ⟨by decide!, by decide!⟩

/-- C7: any run that reaches the stepping loop (it either completes or
fails only the final duration assert) passed the initial-condition
asserts, which are exact equalities — reported initial linear velocity
equals `v0`, reported initial angular velocity equals `w0`, reported
inertia matrix equals `I0`, and reported initial angular momentum equals
the componentwise product `(Ixx, Iyy, Izz) * w0`; and each violation
aborts the scenario with the corresponding fatal error before stepping. -/
theorem boxes_initial_asserts_exact (sq : ℚ → ℚ) (qe : Vector3d → Vector3d)
    (_dt : ℚ) (mc : ℤ) (coll cx : Bool) (o : SimOracle) :
    ((∃ res, BoxesTest.Boxes sq qe _dt mc coll cx o = .ok res) ∨
        BoxesTest.Boxes sq qe _dt mc coll cx o = .error .simTimeDrift →
      (o.state (mc - 1).toNat 0).worldCoGLinearVel = boxes.v0 cx ∧
      (o.state (mc - 1).toNat 0).worldAngularVel = boxes.w0 cx ∧
      o.moi (mc - 1).toNat = boxes.I0 ∧
      (o.state (mc - 1).toNat 0).worldAngularMomentum
        = Vector3d.mul ⟨boxes.Ixx, boxes.Iyy, boxes.Izz⟩ (boxes.w0 cx)) ∧
    (0 < mc →
      (o.state (mc - 1).toNat 0).worldCoGLinearVel ≠ boxes.v0 cx →
      BoxesTest.Boxes sq qe _dt mc coll cx o = .error .initialLinearVel) ∧
    (0 < mc →
      (o.state (mc - 1).toNat 0).worldCoGLinearVel = boxes.v0 cx →
      (o.state (mc - 1).toNat 0).worldAngularVel ≠ boxes.w0 cx →
      BoxesTest.Boxes sq qe _dt mc coll cx o = .error .initialAngularVel) ∧
    (0 < mc →
      (o.state (mc - 1).toNat 0).worldCoGLinearVel = boxes.v0 cx →
      (o.state (mc - 1).toNat 0).worldAngularVel = boxes.w0 cx →
      o.moi (mc - 1).toNat ≠ boxes.I0 →
      BoxesTest.Boxes sq qe _dt mc coll cx o = .error .initialInertia) ∧
    (0 < mc →
      (o.state (mc - 1).toNat 0).worldCoGLinearVel = boxes.v0 cx →
      (o.state (mc - 1).toNat 0).worldAngularVel = boxes.w0 cx →
      o.moi (mc - 1).toNat = boxes.I0 →
      |(o.state (mc - 1).toNat 0).worldEnergy - boxes.E0 cx| ≤ 1 / 1000000 →
      (o.state (mc - 1).toNat 0).worldAngularMomentum
        ≠ Vector3d.mul ⟨boxes.Ixx, boxes.Iyy, boxes.Izz⟩ (boxes.w0 cx) →
      BoxesTest.Boxes sq qe _dt mc coll cx o
        = .error .initialAngularMomentum) := by
  refine ⟨?_, ?_, ?_, ?_, ?_⟩
  · intro h
    rcases h with ⟨res, hok⟩ | hdrift
    · obtain ⟨-, h2, h3, h4, -, h6, -, -⟩ := (Boxes_ok_iff _ _ _ _ _ _ _ _).mp hok
      exact ⟨h2, h3, h4, h6⟩
    · unfold BoxesTest.Boxes at hdrift
      split_ifs at hdrift with h1 h2 h3 h4 h5 h6 h7 <;> simp_all
  · intro hmc hne
    unfold BoxesTest.Boxes
    simp_all
  · intro hmc he1 hne
    unfold BoxesTest.Boxes
    simp_all
  · intro hmc he1 he2 hne
    unfold BoxesTest.Boxes
    simp_all
  · intro hmc he1 he2 he3 he4 hne
    unfold BoxesTest.Boxes
    simp_all

/-- C7 witness: a concrete completed run passed the exact initial-condition
asserts. -/
theorem boxes_initial_asserts_exact_witness :
    (oS.state ((1 : ℤ) - 1).toNat 0).worldCoGLinearVel = boxes.v0 false ∧
    (oS.state ((1 : ℤ) - 1).toNat 0).worldAngularVel = boxes.w0 false ∧
    oS.moi ((1 : ℤ) - 1).toNat = boxes.I0 ∧
    (oS.state ((1 : ℤ) - 1).toNat 0).worldAngularMomentum
      = Vector3d.mul ⟨boxes.Ixx, boxes.Iyy, boxes.Izz⟩ (boxes.w0 false) :=
  (boxes_initial_asserts_exact sqrtW qeW 10 1 false false oS).1
    (Or.inl ⟨okStats (BoxesTest.Boxes sqrtW qeW 10 1 false false oS),
      by decide!⟩)

/-- C9: every spawned model receives the same initial linear and angular
velocity `v0`, `w0`; for a positive model count exactly `N` models are
spawned; a model count of at most zero aborts the scenario fatally with no
model spawned; and the whole run depends only on the world clock, gravity,
and the last-spawned body's reported inertia and states — bodies other
than the last never influence an assert, a sample, or a statistic. -/
theorem boxes_multi_model_last_body (sq : ℚ → ℚ) (qe : Vector3d → Vector3d)
    (_dt : ℚ) (mc : ℤ) (coll cx : Bool) :
    (∀ cmd ∈ spawnedModels mc coll cx,
      cmd.linVel = boxes.v0 cx ∧ cmd.angVel = boxes.w0 cx) ∧
    (0 < mc → (spawnedModels mc coll cx).length = mc.toNat) ∧
    (mc ≤ 0 → spawnedModels mc coll cx = [] ∧
      ∀ o, BoxesTest.Boxes sq qe _dt mc coll cx o = .error .modelCount) ∧
    (∀ o o2 : SimOracle, o.gravityWorld = o2.gravityWorld →
      o.simTime = o2.simTime →
      o.moi (mc - 1).toNat = o2.moi (mc - 1).toNat →
      o.state (mc - 1).toNat = o2.state (mc - 1).toNat →
      BoxesTest.Boxes sq qe _dt mc coll cx o
        = BoxesTest.Boxes sq qe _dt mc coll cx o2) := by
  refine ⟨?_, ?_, ?_, ?_⟩
  · intro cmd hmem
    by_cases h : 0 < mc
    · simp only [spawnedModels, if_pos h, List.mem_map] at hmem
      obtain ⟨i, -, rfl⟩ := hmem
      exact ⟨rfl, rfl⟩
    · simp [spawnedModels, if_neg h] at hmem
  · intro h
    rw [spawnedModels, if_pos h, List.length_map, List.length_range]
  · intro h
    have hnot : ¬ 0 < mc := not_lt.mpr h
    refine ⟨by simp [spawnedModels, if_neg hnot], fun o => ?_⟩
    unfold BoxesTest.Boxes
    rw [if_neg hnot]
  · intro o o2 hg ht hm hs
    have hcongr : boxesStats sq qe _dt mc cx o = boxesStats sq qe _dt mc cx o2 := by
      rw [boxesStats_closed, boxesStats_closed]
      simp only [linearPositionSamples, linearVelocitySamples,
        angularMomentumSamples, angularPositionSamples, energySamples,
        hs, ht, hg]
    unfold BoxesTest.Boxes
    rw [hs, ht, hm, hcongr]

/-- C9 witness: a non-positive model count aborts with nothing spawned,
and two oracles that differ only in the non-last body produce identical
runs. -/
theorem boxes_multi_model_last_body_witness :
    (spawnedModels 0 false false = [] ∧
      BoxesTest.Boxes sqrtW qeW 10 0 false false oS = .error .modelCount) ∧
    BoxesTest.Boxes sqrtW qeW 10 2 false false oA
      = BoxesTest.Boxes sqrtW qeW 10 2 false false oB := by
  have t1 := (boxes_multi_model_last_body sqrtW qeW 10 0 false false).2.2.1
    (le_refl 0)
  have t2 := (boxes_multi_model_last_body sqrtW qeW 10 2 false false).2.2.2
    oA oB rfl rfl rfl (by funext k; rfl)
  exact ⟨⟨t1.1, t1.2 oS⟩, t2⟩

/-- C6: an angular-position error sample is recorded on a step exactly
when the scenario is not complex: a completed complex run leaves the
angular-position accumulator untouched (no sample ever recorded), while a
completed simple run's accumulator is the `maxAbs` statistic of the
samples `a_i - Euler(Quaterniond(w0 * t_i))` (reported Euler angles minus
the Euler angles of the predicted orientation); and for the simple
scenario's `w0` the predicted orientation `Quaterniond(w0 * t)` is the
closed-form rotation by the angle `|w0| * t` about the fixed axis
`w0 / |w0|`, for any sine/cosine with `sin 0 = 0`, `cos 0 = 1` and any
square root with `sqrt(|w0|^2) = 1/2`. -/
theorem boxes_angular_position_characterization (sq : ℚ → ℚ)
    (qe : Vector3d → Vector3d) (_dt : ℚ) (mc : ℤ) (coll : Bool)
    (oCx oSm : SimOracle) (resCx resSm : ErrorStats) (sn cs : ℚ → ℚ)
    (hCx : BoxesTest.Boxes sq qe _dt mc coll true oCx = .ok resCx)
    (hSm : BoxesTest.Boxes sq qe _dt mc coll false oSm = .ok resSm)
    (hsn : sn 0 = 0) (hcs : cs 0 = 1)
    (hmag : sq ((boxes.w0 false).lengthSq) = 1 / 2) :
    resCx.angularPositionError = Vector3Stats.init ∧
    resSm.angularPositionError
      = maxAbsVector3 sq (angularPositionSamples qe oSm (mc - 1).toNat
          (boxes.w0 false) (oSm.simTime 0) (boxesSteps _dt)) ∧
    ∀ t : ℚ, Quaterniond.fromEuler sn cs (Vector3d.smul t (boxes.w0 false))
      = Quaterniond.fromAxisAngle sn cs
          (Vector3d.smul (1 / sq ((boxes.w0 false).lengthSq))
            (boxes.w0 false))
          (sq ((boxes.w0 false).lengthSq) * t) := by
  refine ⟨?_, ?_, ?_⟩
  · obtain ⟨-, -, -, -, -, -, -, hres⟩ := (Boxes_ok_iff _ _ _ _ _ _ _ _).mp hCx
    rw [← hres, boxesStats_closed]
    rfl
  · obtain ⟨-, -, -, -, -, -, -, hres⟩ := (Boxes_ok_iff _ _ _ _ _ _ _ _).mp hSm
    rw [← hres, boxesStats_closed]
    rfl
  · intro t
    rw [hmag]
    have harg : t * (1 / 2 : ℚ) / 2 = 1 / 2 * t / 2 := by ring
    simp only [boxes.w0, Bool.false_eq_true, if_false, Vector3d.smul,
      Quaterniond.fromEuler, Quaterniond.fromAxisAngle, mul_zero, zero_div,
      hsn, hcs, harg]
    norm_num

/-- C6 witness: concrete completed complex and simple runs, constant
trigonometric stand-ins satisfying the hypotheses, and the closed-form
clause instantiated at `t = 0`. -/
theorem boxes_angular_position_characterization_witness :
    (okStats (BoxesTest.Boxes sqrtW qeW 10 1 false true oC)).angularPositionError
      = Vector3Stats.init ∧
    (okStats (BoxesTest.Boxes sqrtW qeW 10 1 false false oS)).angularPositionError
      = maxAbsVector3 sqrtW (angularPositionSamples qeW oS ((1 : ℤ) - 1).toNat
          (boxes.w0 false) (oS.simTime 0) (boxesSteps 10)) ∧
    Quaterniond.fromEuler (fun _ => 0) (fun _ => 1)
        (Vector3d.smul 0 (boxes.w0 false))
      = Quaterniond.fromAxisAngle (fun _ => 0) (fun _ => 1)
          (Vector3d.smul (1 / sqrtW ((boxes.w0 false).lengthSq))
            (boxes.w0 false))
          (sqrtW ((boxes.w0 false).lengthSq) * 0) := by
  have H := boxes_angular_position_characterization sqrtW qeW 10 1 false
    oC oS (okStats (BoxesTest.Boxes sqrtW qeW 10 1 false true oC))
    (okStats (BoxesTest.Boxes sqrtW qeW 10 1 false false oS))
    (fun _ => 0) (fun _ => 1) (by decide!) (by decide!) rfl rfl rfl
  exact ⟨H.1, H.2.1, H.2.2 0⟩
